import Mathlib

/-
  Verification development for the drivetogcs batch media-description pipeline.

  The Go source is shallowly embedded: every external effect (HTTP download,
  object-storage probe and write, template parsing and execution, model
  inference) is represented by an explicit per-asset environment value, the
  local disk by an explicit filesystem state threaded through the functions,
  and log.Fatalf (process abort) by a dedicated outcome constructor.
-/

namespace DriveToGCS

/-- A Drive file as returned by the listing call: identifier, display name,
content type and parent folder identifiers. -/
structure DriveFile where
  id : String
  name : String
  mimeType : String
  parents : List String
deriving DecidableEq, Repr

/-- Result of a fallible external step, mirroring a Go (value, error) pair
where exactly one side is meaningful. -/
inductive Res (α : Type) where
  | err (msg : String)
  | ok (a : α)
deriving DecidableEq, Repr

/-- Outcome of a computation that may instead abort the whole process via
log.Fatalf. -/
inductive Fatalable (α : Type) where
  | fatal (msg : String)
  | done (a : α)
deriving DecidableEq, Repr

/-- The local filesystem: the set of existing directories and a map from file
paths to byte contents (a byte is modelled as a Nat). -/
structure LocalFS where
  dirs : List String
  files : List (String × List Nat)
deriving DecidableEq, Repr

def emptyFS : LocalFS := { dirs := [], files := [] }

def fsDirExists (fs : LocalFS) (d : String) : Bool :=
  fs.dirs.contains d

def fsMkdirAll (fs : LocalFS) (d : String) : LocalFS :=
  { fs with dirs := d :: fs.dirs }

def fsLookup (fs : LocalFS) (p : String) : Option (List Nat) :=
  (fs.files.find? (fun kv => kv.1 == p)).map (fun kv => kv.2)

def fsFileExists (fs : LocalFS) (p : String) : Bool :=
  (fsLookup fs p).isSome

def fsWriteFile (fs : LocalFS) (p : String) (b : List Nat) : LocalFS :=
  { fs with files := (p, b) :: fs.files }

/-- Go filepath.Join for the two-component uses in the source: an empty first
component yields the second component unchanged. -/
def goPathJoin (a b : String) : String :=
  if a = "" then b else a ++ "/" ++ b

/-- http.StatusOK. -/
def statusOK : Nat := 200

/-- Reading the HTTP response body (io.Copy in the source) either yields the
bytes or fails. -/
inductive BodyRead where
  | readErr (msg : String)
  | ok (bytes : List Nat)
deriving DecidableEq, Repr

/-- Result of the Drive content-download call: either the call itself returns
an error (transport failure), or a response with a status code and a body. -/
inductive HTTPResult where
  | err (msg : String)
  | resp (statusCode : Nat) (body : BodyRead)
deriving DecidableEq, Repr

def isTransportErr : HTTPResult → Bool
  | .err _ => true
  | .resp _ _ => false

/-- getFileBytes (source lines 276-324): download the file; a transport error
aborts the whole process (log.Fatalf); a non-OK status or a body-read failure
returns an error; on success, ensure the local folder exists, then write the
bytes to the local path only if no file with that name is already there, and
return the freshly downloaded bytes in every successful case. -/
def getFileBytes (localFolderName : String) (file : DriveFile) (http : HTTPResult)
    (fs : LocalFS) : Fatalable (Res (List Nat)) × LocalFS :=
  match http with
  | .err m => (.fatal ("Error downloading file: " ++ m), fs)
  | .resp statusCode body =>
    if statusCode ≠ statusOK then
      (.done (.err ("Error: HTTP status code " ++ toString statusCode)), fs)
    else
      match body with
      | .readErr m => (.done (.err ("Unable to read response body: " ++ m)), fs)
      | .ok fileBytes =>
        let fs1 := if fsDirExists fs localFolderName then fs else fsMkdirAll fs localFolderName
        let localFilePath := goPathJoin localFolderName file.name
        let fs2 := if fsFileExists fs1 localFilePath then fs1
          else fsWriteFile fs1 localFilePath fileBytes
        (.done (.ok fileBytes), fs2)

/-- The object-existence probe of the Mirror Uploader: found, not found
(storage.ErrObjectNotExist), or any other error. -/
inductive ProbeResult where
  | found
  | notFound
  | otherErr (msg : String)
deriving DecidableEq, Repr

/-- Per-call external behavior of the object-storage service: client creation,
the existence probe, and whether the write and the close succeed. -/
structure GCSEnv where
  clientErr : Option String
  probe : ProbeResult
  writeOk : Bool
  closeOk : Bool
deriving DecidableEq, Repr

inductive UploadOutcome where
  | skippedExisting
  | uploaded
deriving DecidableEq, Repr

/-- The write-and-close tail of uploadFileToGCS (source lines 347-356). -/
def uploadWrite (env : GCSEnv) : Res UploadOutcome :=
  if env.writeOk then
    if env.closeOk then .ok .uploaded
    else .err "failed to close writer"
  else .err "failed to write file to GCS"

/-- uploadFileToGCS (source lines 327-357): create a client; when override is
false, probe for the object and skip the upload when it is found, proceed when
the probe reports not-found, and surface any other probe error; otherwise (or
with override true) write and close. -/
def uploadFileToGCS (env : GCSEnv) (bucketName folderPath objectName : String)
    (fileBytes : List Nat) (override : Bool) : Res UploadOutcome :=
  match env.clientErr with
  | some m => .err ("failed to create client: " ++ m)
  | none =>
    let _objectPath := goPathJoin folderPath objectName
    let _bytes := fileBytes
    let _bucket := bucketName
    if !override then
      match env.probe with
      | .found => .ok .skippedExisting
      | .notFound => uploadWrite env
      | .otherErr m => .err ("failed to check object existence: " ++ m)
    else
      uploadWrite env

/-- The global configuration set by flags (source lines 27-42). -/
structure Config where
  localFolderName : String
  gcsBucket : String
  gcsFolderPath : String
  alwaysUploadToGCS : Bool
  createDescription : Bool
  customPromptLocation : String
deriving DecidableEq, Repr

/-- Per-asset external behavior for one run: the download response, the
object-storage behavior, the outcome of parsing a custom template file, the
outcome of executing the chosen template, and the model-invocation outcome
(err, or ok with the extracted text). -/
structure AssetEnv where
  http : HTTPResult
  gcs : GCSEnv
  customParse : Res Unit
  tmplExec : Res String
  genResult : Res String
deriving DecidableEq, Repr

/-- describe (source lines 206-273): obtain the bytes (propagating a fatal or
an error), attempt the mirror upload (an upload error is only logged), then,
when description generation is enabled, resolve the template (a custom
template parse failure is returned as an error), execute it (a failure is
returned as an error), and invoke the model: a model error yields an empty
description with size 0 and NO error, success yields the text with the byte
count. When generation is disabled a fixed placeholder is returned with the
byte count. The second component records the upload call result (none when
the upload was never reached). -/
def describe (cfg : Config) (file : DriveFile) (env : AssetEnv) (fs : LocalFS) :
    Fatalable (String × Nat × Option String) × Option (Res UploadOutcome) × LocalFS :=
  match getFileBytes cfg.localFolderName file env.http fs with
  | (.fatal m, fs2) => (.fatal m, none, fs2)
  | (.done (.err m), fs2) => (.done ("", 0, some m), none, fs2)
  | (.done (.ok fileBytes), fs2) =>
    let uploadRes := uploadFileToGCS env.gcs cfg.gcsBucket cfg.gcsFolderPath
      file.name fileBytes cfg.alwaysUploadToGCS
    let byteCount := fileBytes.length
    if cfg.createDescription then
      match (if cfg.customPromptLocation ≠ "" then env.customParse else Res.ok ()) with
      | .err m => (.done ("", 0, some ("failed to parse custom template: " ++ m)), some uploadRes, fs2)
      | .ok _ =>
        match env.tmplExec with
        | .err m => (.done ("", 0, some m), some uploadRes, fs2)
        | .ok _prompt =>
          match env.genResult with
          | .err _m => (.done ("", 0, none), some uploadRes, fs2)
          | .ok text => (.done (text, byteCount, none), some uploadRes, fs2)
    else
      (.done ("Description skipped", byteCount, none), some uploadRes, fs2)

/-- The body of one orchestrator goroutine (source lines 142-163): call
describe, replace the description with an error text when an error was
returned, and build the CSV record (name, size, content type, id,
description). -/
def taskRecord (cfg : Config) (file : DriveFile) (env : AssetEnv) (fs : LocalFS) :
    Fatalable (List String) × LocalFS :=
  match describe cfg file env fs with
  | (.fatal m, _, fs2) => (.fatal m, fs2)
  | (.done (description, size, e), _, fs2) =>
    let description := match e with
      | some m => "Error: " ++ m
      | none => description
    (.done [file.name, toString size, file.mimeType, file.id, description], fs2)

/-- The per-asset tasks of main, one record appended per asset; a fatal inside
any task aborts the process. -/
def runRecords (cfg : Config) (pairs : List (DriveFile × AssetEnv)) (fs : LocalFS) :
    Fatalable (List (List String)) × LocalFS :=
  match pairs with
  | [] => (.done [], fs)
  | (f, e) :: rest =>
    match taskRecord cfg f e fs with
    | (.fatal m, fs2) => (.fatal m, fs2)
    | (.done r, fs2) =>
      match runRecords cfg rest fs2 with
      | (.fatal m, fs3) => (.fatal m, fs3)
      | (.done rs, fs3) => (.done (r :: rs), fs3)

/-- fileCount (source lines 134-137): the number of assets processed, capped
by maxFiles only when maxFiles is positive and strictly below the list
length. -/
def fileCount (maxFiles : Int) (n : Nat) : Nat :=
  if 0 < maxFiles ∧ maxFiles < (n : Int) then maxFiles.toNat else n

/-- The processing loop of main (source lines 134-165): process the first
fileCount listed assets, one task and one record each. -/
def mainRun (cfg : Config) (maxFiles : Int) (assets : List (DriveFile × AssetEnv))
    (fs : LocalFS) : Fatalable (List (List String)) × LocalFS :=
  runRecords cfg (assets.take (fileCount maxFiles assets.length)) fs

/-- Splitting a character list at every occurrence of a separator character;
an empty input yields one empty group, as Go strings.Split does. -/
def splitCharAux (c : Char) : List Char → List (List Char)
  | [] => [[]]
  | ch :: rest =>
    match splitCharAux c rest with
    | [] => [[]]
    | g :: gs => if ch = c then [] :: g :: gs else (ch :: g) :: gs

/-- Go strings.Split for a one-character separator. -/
def splitChar (c : Char) (s : String) : List String :=
  (splitCharAux c s.data).map String.mk

/-- The default value of the mime-types flag (source line 64). -/
def mimeTypesDefault : String := "image/jpeg,image/png"

/-- The mutable cell flag.String returns a pointer to; flag.Parse later
overwrites it with a supplied value. -/
structure FlagState where
  mimeTypesValue : String
deriving DecidableEq, Repr

/-- flag.String registration: the cell initially holds the default. -/
def registerFlags : FlagState := { mimeTypesValue := mimeTypesDefault }

/-- flag.Parse: store the supplied command-line value, when one was given. -/
def flagParse (suppliedMimeTypes : Option String) (st : FlagState) : FlagState :=
  match suppliedMimeTypes with
  | some v => { st with mimeTypesValue := v }
  | none => st

structure InitState where
  mimeTypes : List String
  flags : FlagState
deriving DecidableEq, Repr

/-- init (source lines 52-68): the mime-types flag is registered at line 64,
the returned pointer is dereferenced and split on commas at line 65, and only
then does flag.Parse run at line 67 — so mimeTypes is computed from the value
the cell holds BEFORE parsing. -/
def runInit (suppliedMimeTypes : Option String) : InitState :=
  let st0 := registerFlags
  let mts := splitChar (Char.ofNat 44) st0.mimeTypesValue
  let st1 := flagParse suppliedMimeTypes st0
  { mimeTypes := mts, flags := st1 }

/-- The mimeType clauses of the listing query (source lines 178-181). -/
def mimeQueryParts (mimeTypes : List String) : List String :=
  mimeTypes.map (fun m => "mimeType = \x27" ++ m ++ "\x27")

/-- The full listing query string (source lines 182-185). -/
def buildQuery (folderID : String) (mimeTypes : List String) : String :=
  "\x27" ++ folderID ++ "\x27 in parents and ("
    ++ String.intercalate " or " (mimeQueryParts mimeTypes) ++ ")"

/-- Semantics of the query the source builds, as evaluated by the external
file-listing service: a file matches when the folder is among its parents and
its content type equals one of the listed types (OR across types). -/
def driveQueryMatches (folderID : String) (mimeTypes : List String) (f : DriveFile) : Bool :=
  f.parents.contains folderID && mimeTypes.any (fun m => f.mimeType == m)

/-- listFiles (source lines 171-203): the service returns the files of its
store matching the built query. -/
def listFiles (driveFiles : List DriveFile) (folderID : String)
    (mimeTypes : List String) : List DriveFile :=
  driveFiles.filter (driveQueryMatches folderID mimeTypes)

/-- main line 120: the listing uses the mimeTypes computed by init. -/
def mainListFiles (driveFiles : List DriveFile) (suppliedMimeTypes : Option String)
    (folderID : String) : List DriveFile :=
  listFiles driveFiles folderID (runInit suppliedMimeTypes).mimeTypes

/-- One scheduling-relevant operation of a goroutine: a mutex operation or a
write of one piece of text into the shared buffered CSV writer, tagged with
the task that issued it. -/
inductive TaskOp where
  | lockAcquire (taskId : Nat)
  | lockRelease (taskId : Nat)
  | bufWrite (taskId : Nat) (text : String)
  | wgDone (taskId : Nat)
deriving DecidableEq, Repr

def isLockOp : TaskOp → Bool
  | .lockAcquire _ => true
  | .lockRelease _ => true
  | _ => false

/-- The operations one goroutine performs against shared state when appending
its record (source lines 142-163): csvWriter.Write pushes each field and then
the line terminator into the shared buffered writer, and the deferred wg.Done
runs last. The body contains no lock operations. -/
def goroutineWriteOps (taskId : Nat) (record : List String) : List TaskOp :=
  record.map (fun f => TaskOp.bufWrite taskId f)
    ++ [TaskOp.bufWrite taskId "\n", TaskOp.wgDone taskId]

/-- An interleaving of the operation sequences of two concurrently scheduled
goroutines. -/
inductive Interleaving : List TaskOp → List TaskOp → List TaskOp → Prop where
  | nil : Interleaving [] [] []
  | left {x : TaskOp} {xs ys zs : List TaskOp} :
      Interleaving xs ys zs → Interleaving (x :: xs) ys (x :: zs)
  | right {y : TaskOp} {xs ys zs : List TaskOp} :
      Interleaving xs ys zs → Interleaving xs (y :: ys) (y :: zs)

/-- Executable check that a trace is an interleaving of two sequences. -/
def interleavingCheck : List TaskOp → List TaskOp → List TaskOp → Bool
  | xs, ys, [] => xs.isEmpty && ys.isEmpty
  | xs, ys, z :: zs =>
    (match xs with
     | x :: xs2 => decide (x = z) && interleavingCheck xs2 ys zs
     | [] => false)
    ||
    (match ys with
     | y :: ys2 => decide (y = z) && interleavingCheck xs ys2 zs
     | [] => false)

theorem interleavingCheck_sound :
    ∀ (t xs ys : List TaskOp), interleavingCheck xs ys t = true → Interleaving xs ys t := by
  intro t
  induction t with
  | nil =>
    intro xs ys h
    simp only [interleavingCheck, Bool.and_eq_true, List.isEmpty_iff] at h
    rw [h.1, h.2]
    exact .nil
  | cons z zs ih =>
    intro xs ys h
    simp only [interleavingCheck, Bool.or_eq_true] at h
    rcases h with h | h
    · match xs, h with
      | x :: xs2, h =>
        simp only [Bool.and_eq_true, decide_eq_true_eq] at h
        rw [← h.1]
        exact .left (ih xs2 ys h.2)
    · match ys, h with
      | y :: ys2, h =>
        simp only [Bool.and_eq_true, decide_eq_true_eq] at h
        rw [← h.1]
        exact .right (ih xs ys2 h.2)

/-- The task identifiers of the buffer writes of a trace, in order. -/
def bufTaskIds (t : List TaskOp) : List Nat :=
  t.filterMap (fun op => match op with
    | .bufWrite tid _ => some tid
    | _ => none)

/-- Number of adjacent task switches in a sequence of task identifiers; two
records whose fields do not interleave produce at most one switch. -/
def switches : List Nat → Nat
  | [] => 0
  | [_] => 0
  | a :: b :: rest => (if a = b then 0 else 1) + switches (b :: rest)

/-- Result component of getFileBytes: a pure function of the download
response, independent of the filesystem state. -/
def downloadOutcome : HTTPResult → Fatalable (Res (List Nat))
  | .err m => .fatal ("Error downloading file: " ++ m)
  | .resp statusCode body =>
    if statusCode ≠ statusOK then
      .done (.err ("Error: HTTP status code " ++ toString statusCode))
    else
      match body with
      | .readErr m => .done (.err ("Unable to read response body: " ++ m))
      | .ok fileBytes => .done (.ok fileBytes)

theorem getFileBytes_fst (localFolderName : String) (file : DriveFile)
    (http : HTTPResult) (fs : LocalFS) :
    (getFileBytes localFolderName file http fs).1 = downloadOutcome http := by
  cases http with
  | err m => rfl
  | resp statusCode body =>
    by_cases hs : statusCode = statusOK
    · cases body with
      | readErr m => simp [getFileBytes, downloadOutcome, hs]
      | ok fileBytes => simp [getFileBytes, downloadOutcome, hs]
    · simp [getFileBytes, downloadOutcome, hs]

/-- Result component of describe: a pure function of the configuration, the
file and the per-asset environment, independent of the filesystem state. -/
def describeOutcome (cfg : Config) (file : DriveFile) (env : AssetEnv) :
    Fatalable (String × Nat × Option String) :=
  match downloadOutcome env.http with
  | .fatal m => .fatal m
  | .done (.err m) => .done ("", 0, some m)
  | .done (.ok fileBytes) =>
    let byteCount := fileBytes.length
    if cfg.createDescription then
      match (if cfg.customPromptLocation ≠ "" then env.customParse else Res.ok ()) with
      | .err m => .done ("", 0, some ("failed to parse custom template: " ++ m))
      | .ok _ =>
        match env.tmplExec with
        | .err m => .done ("", 0, some m)
        | .ok _prompt =>
          match env.genResult with
          | .err _m => .done ("", 0, none)
          | .ok text => .done (text, byteCount, none)
    else
      .done ("Description skipped", byteCount, none)

theorem describe_fst (cfg : Config) (file : DriveFile) (env : AssetEnv) (fs : LocalFS) :
    (describe cfg file env fs).1 = describeOutcome cfg file env := by
  have hd := getFileBytes_fst cfg.localFolderName file env.http fs
  unfold describe describeOutcome
  rcases hfs : getFileBytes cfg.localFolderName file env.http fs with ⟨r, fsa⟩
  rw [hfs] at hd
  simp only at hd
  rw [← hd]
  cases r with
  | fatal m => rfl
  | done res =>
    cases res with
    | err m => rfl
    | ok fileBytes =>
      cases hc : cfg.createDescription with
      | false => rfl
      | true =>
        cases hp : (if cfg.customPromptLocation ≠ "" then env.customParse else Res.ok ()) with
        | err m => rfl
        | ok u =>
          cases env.tmplExec with
          | err m => rfl
          | ok p =>
            cases env.genResult with
            | err m => rfl
            | ok text => rfl

/-- Record component of one goroutine: a pure function of the configuration,
the file and the environment. -/
def recordOf (cfg : Config) (file : DriveFile) (env : AssetEnv) : Fatalable (List String) :=
  match describeOutcome cfg file env with
  | .fatal m => .fatal m
  | .done (description, size, e) =>
    let description := match e with
      | some m => "Error: " ++ m
      | none => description
    .done [file.name, toString size, file.mimeType, file.id, description]

theorem taskRecord_fst (cfg : Config) (file : DriveFile) (env : AssetEnv) (fs : LocalFS) :
    (taskRecord cfg file env fs).1 = recordOf cfg file env := by
  have hd := describe_fst cfg file env fs
  unfold taskRecord recordOf
  rcases hfs : describe cfg file env fs with ⟨r, upl, fsa⟩
  rw [hfs] at hd
  simp only at hd
  rw [← hd]
  cases r with
  | fatal m => rfl
  | done trip => rfl

/-- Records component of the whole run: a pure function of the configuration
and the asset list. -/
def recordsOf (cfg : Config) : List (DriveFile × AssetEnv) → Fatalable (List (List String))
  | [] => .done []
  | (f, e) :: rest =>
    match recordOf cfg f e with
    | .fatal m => .fatal m
    | .done r =>
      match recordsOf cfg rest with
      | .fatal m => .fatal m
      | .done rs => .done (r :: rs)

theorem runRecords_fst (cfg : Config) (pairs : List (DriveFile × AssetEnv)) (fs : LocalFS) :
    (runRecords cfg pairs fs).1 = recordsOf cfg pairs := by
  induction pairs generalizing fs with
  | nil => rfl
  | cons p rest ih =>
    rcases p with ⟨f, e⟩
    have ht := taskRecord_fst cfg f e fs
    unfold runRecords recordsOf
    rcases hfs : taskRecord cfg f e fs with ⟨r, fs2⟩
    rw [hfs] at ht
    simp only at ht
    rw [← ht]
    cases r with
    | fatal m => rfl
    | done rec2 =>
      dsimp only
      have hr := ih fs2
      rcases hrun : runRecords cfg rest fs2 with ⟨rr, fs3⟩
      rw [hrun] at hr
      simp only at hr
      rw [← hr]
      cases rr with
      | fatal m => rfl
      | done rs => rfl

/-- The record of one asset, when its task does not abort the process. -/
def recordFields (cfg : Config) (file : DriveFile) (env : AssetEnv) : List String :=
  match recordOf cfg file env with
  | .done r => r
  | .fatal _ => []

theorem downloadOutcome_fatal (http : HTTPResult) (m : String)
    (h : downloadOutcome http = .fatal m) : isTransportErr http = true := by
  cases http with
  | err m2 => rfl
  | resp statusCode body =>
    exfalso
    unfold downloadOutcome at h
    by_cases hs : statusCode = statusOK
    · simp only [hs, ne_eq, not_true_eq_false, if_false] at h
      cases body <;> simp_all
    · simp [hs] at h

theorem describeOutcome_fatal (cfg : Config) (file : DriveFile) (env : AssetEnv)
    (m : String) (h : describeOutcome cfg file env = .fatal m) :
    isTransportErr env.http = true := by
  unfold describeOutcome at h
  cases hdl : downloadOutcome env.http with
  | fatal m2 => exact downloadOutcome_fatal env.http m2 hdl
  | done res =>
    exfalso
    rw [hdl] at h
    cases res with
    | err m3 => simp at h
    | ok fileBytes =>
      cases hc : cfg.createDescription with
      | false => rw [hc] at h; simp at h
      | true =>
        rw [hc] at h
        cases hp : (if cfg.customPromptLocation ≠ "" then env.customParse else Res.ok ()) with
        | err m3 => rw [hp] at h; simp at h
        | ok u =>
          rw [hp] at h
          cases htx : env.tmplExec with
          | err m3 => rw [htx] at h; simp at h
          | ok p =>
            rw [htx] at h
            cases hg : env.genResult with
            | err m3 => rw [hg] at h; simp at h
            | ok text => rw [hg] at h; simp at h

theorem recordOf_done (cfg : Config) (file : DriveFile) (env : AssetEnv)
    (h : isTransportErr env.http = false) :
    recordOf cfg file env = .done (recordFields cfg file env) := by
  cases hr : recordOf cfg file env with
  | done r =>
    unfold recordFields
    rw [hr]
  | fatal m =>
    exfalso
    unfold recordOf at hr
    cases hdo : describeOutcome cfg file env with
    | fatal m2 =>
      have hf := describeOutcome_fatal cfg file env m2 hdo
      rw [h] at hf
      exact Bool.false_ne_true hf
    | done trip =>
      rw [hdo] at hr
      rcases trip with ⟨d, sz, er⟩
      simp at hr

theorem recordsOf_done (cfg : Config) (pairs : List (DriveFile × AssetEnv))
    (h : ∀ p ∈ pairs, isTransportErr p.2.http = false) :
    recordsOf cfg pairs = .done (pairs.map (fun p => recordFields cfg p.1 p.2)) := by
  induction pairs with
  | nil => rfl
  | cons p rest ih =>
    rcases p with ⟨f, e⟩
    have h1 : isTransportErr e.http = false := h (f, e) (List.mem_cons_self _ _)
    have h2 : ∀ q ∈ rest, isTransportErr q.2.http = false :=
      fun q hq => h q (List.mem_cons_of_mem _ hq)
    unfold recordsOf
    rw [recordOf_done cfg f e h1, ih h2]
    rfl

theorem fileCount_le (maxFiles : Int) (n : Nat) : fileCount maxFiles n ≤ n := by
  unfold fileCount
  split <;> omega

theorem fileCount_pos (maxFiles : Int) (n : Nat) (h : 0 < maxFiles) :
    fileCount maxFiles n = min maxFiles.toNat n := by
  unfold fileCount
  split <;> omega

theorem fileCount_nonpos (maxFiles : Int) (n : Nat) (h : maxFiles ≤ 0) :
    fileCount maxFiles n = n := by
  unfold fileCount
  split <;> omega

theorem downloadOutcome_ok (bytes : List Nat) :
    downloadOutcome (.resp statusOK (.ok bytes)) = .done (.ok bytes) := by
  unfold downloadOutcome
  simp

theorem getFileBytes_ok (localName : String) (f : DriveFile) (bytes : List Nat) (fs : LocalFS) :
    getFileBytes localName f (.resp statusOK (.ok bytes)) fs =
      (.done (.ok bytes),
        if fsFileExists (if fsDirExists fs localName then fs else fsMkdirAll fs localName)
            (goPathJoin localName f.name) = true then
          (if fsDirExists fs localName then fs else fsMkdirAll fs localName)
        else
          fsWriteFile (if fsDirExists fs localName then fs else fsMkdirAll fs localName)
            (goPathJoin localName f.name) bytes) := by
  unfold getFileBytes
  simp

theorem fsFileExists_indifferent (fs : LocalFS) (c : Prop) [Decidable c] (d p : String) :
    fsFileExists (if c then fs else fsMkdirAll fs d) p = fsFileExists fs p := by
  split <;> rfl

theorem fsLookup_write (fs : LocalFS) (p : String) (b : List Nat) :
    fsLookup (fsWriteFile fs p b) p = some b := by
  simp [fsLookup, fsWriteFile, List.find?]

theorem fsFileExists_write (fs : LocalFS) (p : String) (b : List Nat) :
    fsFileExists (fsWriteFile fs p b) p = true := by
  unfold fsFileExists
  rw [fsLookup_write]
  rfl

theorem runRecords_cons_fst (cfg : Config) (f : DriveFile) (e : AssetEnv)
    (rest : List (DriveFile × AssetEnv)) (fs : LocalFS)
    (h1 : isTransportErr e.http = false)
    (h2 : ∀ q ∈ rest, isTransportErr q.2.http = false) :
    (runRecords cfg ((f, e) :: rest) fs).1 =
      .done (recordFields cfg f e :: rest.map (fun q => recordFields cfg q.1 q.2)) := by
  rw [runRecords_fst]
  have hall : ∀ q ∈ (f, e) :: rest, isTransportErr q.2.http = false := by
    intro q hq
    rcases List.mem_cons.mp hq with h | h
    · rw [h]; exact h1
    · exact h2 q h
  rw [recordsOf_done cfg ((f, e) :: rest) hall]
  rfl

/-- describeOutcome when the download succeeded and generation is enabled with
a usable template: the result is decided by the model invocation alone, with
an empty description and size 0 on a model error. -/
theorem describeOutcome_enabled (cfg : Config) (f : DriveFile) (e : AssetEnv)
    (bytes : List Nat) (p2 : String)
    (hhttp : e.http = .resp statusOK (.ok bytes)) (hcd : cfg.createDescription = true)
    (hok : (if cfg.customPromptLocation ≠ "" then e.customParse else Res.ok ()) = Res.ok ())
    (htx : e.tmplExec = .ok p2) :
    describeOutcome cfg f e = (match e.genResult with
      | .err _ => .done ("", 0, none)
      | .ok text => .done (text, bytes.length, none)) := by
  unfold describeOutcome
  rw [hhttp, downloadOutcome_ok]
  dsimp only
  rw [hcd, hok, htx]
  rfl

/-- describeOutcome when the download succeeded, generation is enabled and the
custom template fails to parse: the error is propagated. -/
theorem describeOutcome_template_error (cfg : Config) (f : DriveFile) (e : AssetEnv)
    (bytes : List Nat) (m : String)
    (hhttp : e.http = .resp statusOK (.ok bytes)) (hcd : cfg.createDescription = true)
    (hne : cfg.customPromptLocation ≠ "") (hparse : e.customParse = .err m) :
    describeOutcome cfg f e = .done ("", 0, some ("failed to parse custom template: " ++ m)) := by
  unfold describeOutcome
  rw [hhttp, downloadOutcome_ok]
  dsimp only
  rw [hcd, if_pos hne, hparse]
  rfl

theorem recordOf_of_outcome_err (cfg : Config) (f : DriveFile) (e : AssetEnv)
    (d : String) (sz : Nat) (m : String)
    (h : describeOutcome cfg f e = .done (d, sz, some m)) :
    recordOf cfg f e = .done [f.name, toString sz, f.mimeType, f.id, "Error: " ++ m] := by
  unfold recordOf
  rw [h]

theorem recordOf_of_outcome_ok (cfg : Config) (f : DriveFile) (e : AssetEnv)
    (d : String) (sz : Nat)
    (h : describeOutcome cfg f e = .done (d, sz, none)) :
    recordOf cfg f e = .done [f.name, toString sz, f.mimeType, f.id, d] := by
  unfold recordOf
  rw [h]

/-- Concrete values used to evaluate the embedding at specific inputs. -/
def cfgEx : Config :=
  { localFolderName := "local", gcsBucket := "proj-media", gcsFolderPath := ""
    alwaysUploadToGCS := false, createDescription := true, customPromptLocation := "" }

def cfgNoDesc : Config := { cfgEx with createDescription := false }

def fileEx : DriveFile :=
  { id := "id0", name := "a.png", mimeType := "image/png", parents := ["folder1"] }

def fileEx2 : DriveFile :=
  { id := "id1", name := "b.png", mimeType := "image/png", parents := ["folder1"] }

def fileWebp : DriveFile :=
  { id := "idw", name := "w.webp", mimeType := "image/webp", parents := ["folder1"] }

def gcsEnvOk : GCSEnv :=
  { clientErr := none, probe := .notFound, writeOk := true, closeOk := true }

def gcsEnvFound : GCSEnv := { gcsEnvOk with probe := .found }

def envOkEx : AssetEnv :=
  { http := .resp statusOK (.ok [0, 1, 2]), gcs := gcsEnvOk, customParse := .ok ()
    tmplExec := .ok "Describe the media", genResult := .ok "a cat" }

def envOkEx2 : AssetEnv := { envOkEx with genResult := .ok "a dog" }

def envTransportErr : AssetEnv := { envOkEx with http := .err "connection refused" }

def envBadStatus : AssetEnv := { envOkEx with http := .resp 500 (.ok []) }

def envGenErr : AssetEnv := { envOkEx with genResult := .err "rpc error" }

def assetsEx : List (DriveFile × AssetEnv) := [(fileEx, envOkEx), (fileEx2, envBadStatus)]

/-- Claim C1, amended: for every run in which no selected asset suffers a
transport-level failure of the download call itself (such a failure aborts the
whole process), the run completes with exactly one record per selected asset,
the number of selected assets is min(listed, cap) when the cap is positive and
the full listing when it is not, and an asset whose pipeline returned an error
yields a record whose description field is an error text. -/
theorem C1_output_completeness (cfg : Config) (maxFiles : Int)
    (assets : List (DriveFile × AssetEnv)) (fs : LocalFS)
    (h : ∀ p ∈ assets.take (fileCount maxFiles assets.length),
      isTransportErr p.2.http = false) :
    (mainRun cfg maxFiles assets fs).1 =
      .done ((assets.take (fileCount maxFiles assets.length)).map
        (fun p => recordFields cfg p.1 p.2))
    ∧ ((assets.take (fileCount maxFiles assets.length)).map
        (fun p => recordFields cfg p.1 p.2)).length = fileCount maxFiles assets.length
    ∧ (0 < maxFiles → fileCount maxFiles assets.length = min maxFiles.toNat assets.length)
    ∧ (maxFiles ≤ 0 → fileCount maxFiles assets.length = assets.length)
    ∧ (∀ f2 e2 m2, describeOutcome cfg f2 e2 = .done ("", 0, some m2) →
        recordFields cfg f2 e2 = [f2.name, "0", f2.mimeType, f2.id, "Error: " ++ m2]) := by
  refine ⟨?_, ?_, ?_, ?_, ?_⟩
  · unfold mainRun
    rw [runRecords_fst]
    exact recordsOf_done cfg _ h
  · rw [List.length_map, List.length_take]
    have := fileCount_le maxFiles assets.length
    omega
  · intro hp
    exact fileCount_pos _ _ hp
  · intro hp
    exact fileCount_nonpos _ _ hp
  · intro f2 e2 m2 hdo
    unfold recordFields
    rw [recordOf_of_outcome_err cfg f2 e2 "" 0 m2 hdo]
    rfl

/-- Claim C1, counterexample to the claim as stated: a run over one listed
asset whose download call fails at the transport level appends no record at
all and aborts the process, although min(listed, uncapped) is 1. -/
theorem C1_counterexample :
    (mainRun cfgEx 0 [(fileEx, envTransportErr)] emptyFS).1 =
      .fatal "Error downloading file: connection refused"
    ∧ fileCount 0 1 = 1 := by
  exact ⟨by decide, rfl⟩

/-- Witness for C1_output_completeness at a concrete run of two listed assets
with cap 1. -/
theorem C1_output_completeness_witness :
    (∀ p ∈ assetsEx.take (fileCount 1 assetsEx.length), isTransportErr p.2.http = false)
    ∧ (mainRun cfgEx 1 assetsEx emptyFS).1 =
      .done ((assetsEx.take (fileCount 1 assetsEx.length)).map
        (fun p => recordFields cfgEx p.1 p.2)) :=
  ⟨by decide, (C1_output_completeness cfgEx 1 assetsEx emptyFS (by decide)).1⟩

/-- The records of the two concurrent tasks whose write operations are
interleaved below. -/
def rec0 : List String := ["a.png", "3", "image/png", "id0", "a cat"]

def rec1 : List String := ["b.png", "3", "image/png", "id1", "a dog"]

/-- A schedule in which task 1 writes its whole record between the first and
the second field write of task 0. -/
def badTrace : List TaskOp :=
  [TaskOp.bufWrite 0 "a.png"]
    ++ goroutineWriteOps 1 rec1
    ++ [TaskOp.bufWrite 0 "3", TaskOp.bufWrite 0 "image/png", TaskOp.bufWrite 0 "id0",
        TaskOp.bufWrite 0 "a cat", TaskOp.bufWrite 0 "\n", TaskOp.wgDone 0]

/-- Claim C2: the goroutine bodies take no lock around the shared csv writer,
so the schedule badTrace — a legal interleaving of the two unsynchronized
tasks — is admissible, and in it the field writes of the two records
interleave (the buffer receives fields of record 0, then record 1, then
record 0 again). The two records are exactly what the pipeline produces for
two concrete assets. -/
theorem C2_unprotected_writer_interleaving :
    (taskRecord cfgEx fileEx envOkEx emptyFS).1 = .done rec0
    ∧ (taskRecord cfgEx fileEx2 envOkEx2 emptyFS).1 = .done rec1
    ∧ (goroutineWriteOps 0 rec0).all (fun op => !(isLockOp op)) = true
    ∧ (goroutineWriteOps 1 rec1).all (fun op => !(isLockOp op)) = true
    ∧ Interleaving (goroutineWriteOps 0 rec0) (goroutineWriteOps 1 rec1) badTrace
    ∧ 2 ≤ switches (bufTaskIds badTrace) :=
  ⟨by decide, by decide, by decide, by decide,
    interleavingCheck_sound badTrace (goroutineWriteOps 0 rec0) (goroutineWriteOps 1 rec1)
      (by decide),
    by decide⟩

/-- Claim C3: the mime-types flag value is dereferenced and split before
flag.Parse runs, so a supplied allow-list never reaches the query: with
image/webp supplied, init still yields the default jpeg/png list, the built
query names only jpeg and png, and a webp file in the folder is not listed —
although the same listing with the supplied list would return it. The parsed
flag cell itself does hold the supplied value, showing the loss happens in
init ordering. -/
theorem C3_mime_flag_ignored :
    (runInit (some "image/webp")).mimeTypes = ["image/jpeg", "image/png"]
    ∧ (runInit (some "image/webp")).flags.mimeTypesValue = "image/webp"
    ∧ buildQuery "folder1" (runInit (some "image/webp")).mimeTypes =
        "\x27folder1\x27 in parents and (mimeType = \x27image/jpeg\x27 or mimeType = \x27image/png\x27)"
    ∧ mainListFiles [fileWebp] (some "image/webp") "folder1" = []
    ∧ listFiles [fileWebp] "folder1" ["image/webp"] = [fileWebp] :=
  ⟨by decide, rfl, by decide, by decide, by decide⟩

/-- Claim C4: an asset whose content-download request returns a non-success
status is degraded and scoped to that asset only: describe returns the
transfer error without touching the filesystem or the model (the result is
the same for every model outcome, and no upload is attempted), the record of
that asset carries the error text as its description, and a run containing
the asset together with any other assets free of transport-level failures
still completes with one record per asset. -/
theorem C4_download_status_failure_scoped (cfg : Config) (f : DriveFile) (e : AssetEnv)
    (fs : LocalFS) (status : Nat) (body : BodyRead)
    (hhttp : e.http = .resp status body) (hbad : ¬ status = statusOK) :
    describe cfg f e fs =
      (.done ("", 0, some ("Error: HTTP status code " ++ toString status)), none, fs)
    ∧ (∀ g, describe cfg f { e with genResult := g } fs = describe cfg f e fs)
    ∧ taskRecord cfg f e fs =
      (.done [f.name, "0", f.mimeType, f.id,
        "Error: " ++ ("Error: HTTP status code " ++ toString status)], fs)
    ∧ (∀ rest, (∀ q ∈ rest, isTransportErr q.2.http = false) →
      (runRecords cfg ((f, e) :: rest) fs).1 =
        .done ([f.name, "0", f.mimeType, f.id,
          "Error: " ++ ("Error: HTTP status code " ++ toString status)]
          :: rest.map (fun q => recordFields cfg q.1 q.2))) := by
  have hgf : ∀ fs0 : LocalFS, getFileBytes cfg.localFolderName f e.http fs0 =
      (.done (.err ("Error: HTTP status code " ++ toString status)), fs0) := by
    intro fs0
    rw [hhttp]
    unfold getFileBytes
    dsimp only
    rw [if_pos hbad]
  have h1 : describe cfg f e fs =
      (.done ("", 0, some ("Error: HTTP status code " ++ toString status)), none, fs) := by
    unfold describe
    rw [hgf fs]
  have htrans : isTransportErr e.http = false := by
    rw [hhttp]
    rfl
  have hrf : recordFields cfg f e =
      [f.name, "0", f.mimeType, f.id,
        "Error: " ++ ("Error: HTTP status code " ++ toString status)] := by
    have hdo : describeOutcome cfg f e =
        .done ("", 0, some ("Error: HTTP status code " ++ toString status)) := by
      have := describe_fst cfg f e fs
      rw [h1] at this
      simp only at this
      exact this.symm
    unfold recordFields
    rw [recordOf_of_outcome_err cfg f e "" 0 _ hdo]
    rfl
  have h3 : taskRecord cfg f e fs =
      (.done [f.name, "0", f.mimeType, f.id,
        "Error: " ++ ("Error: HTTP status code " ++ toString status)], fs) := by
    unfold taskRecord
    rw [h1]
    rfl
  refine ⟨h1, ?_, h3, ?_⟩
  · intro g
    rw [h1]
    unfold describe
    dsimp only
    rw [hgf fs]
  · intro rest hrest
    rw [runRecords_cons_fst cfg f e rest fs htrans hrest, hrf]

/-- Witness for C4_download_status_failure_scoped at a concrete asset whose
download returns status 500. -/
theorem C4_download_status_failure_scoped_witness :
    envBadStatus.http = .resp 500 (.ok []) ∧ ¬ (500 = statusOK)
    ∧ describe cfgEx fileEx2 envBadStatus emptyFS =
      (.done ("", 0, some ("Error: HTTP status code " ++ toString 500)), none, emptyFS) :=
  ⟨rfl, by decide,
    (C4_download_status_failure_scoped cfgEx fileEx2 envBadStatus emptyFS 500 (.ok [])
      rfl (by decide)).1⟩

/-- Claim C5: with the download succeeded and generation enabled, a model
invocation failure is swallowed — describe returns an empty description with
size 0 and no error, so the record carries an empty (not error-text)
description — while a malformed custom template IS propagated as an error and
the record carries an error text; in both cases a run containing the asset
and any other transport-error-free assets still yields every other record. -/
theorem C5_model_error_vs_template_error (cfg : Config) (f : DriveFile) (e : AssetEnv)
    (fs : LocalFS) (bytes : List Nat)
    (hhttp : e.http = .resp statusOK (.ok bytes)) (hcd : cfg.createDescription = true) :
    (∀ g p2, (if cfg.customPromptLocation ≠ "" then e.customParse else Res.ok ()) = Res.ok ()
      → e.tmplExec = .ok p2 → e.genResult = .err g →
      (describe cfg f e fs).1 = .done ("", 0, none)
      ∧ (taskRecord cfg f e fs).1 = .done [f.name, "0", f.mimeType, f.id, ""])
    ∧ (∀ m, cfg.customPromptLocation ≠ "" → e.customParse = .err m →
      (describe cfg f e fs).1 = .done ("", 0, some ("failed to parse custom template: " ++ m))
      ∧ (taskRecord cfg f e fs).1 =
        .done [f.name, "0", f.mimeType, f.id,
          "Error: " ++ ("failed to parse custom template: " ++ m)])
    ∧ (∀ rest, (∀ q ∈ rest, isTransportErr q.2.http = false) →
      (runRecords cfg ((f, e) :: rest) fs).1 =
        .done (recordFields cfg f e :: rest.map (fun q => recordFields cfg q.1 q.2))) := by
  have htrans : isTransportErr e.http = false := by
    rw [hhttp]
    rfl
  refine ⟨?_, ?_, ?_⟩
  · intro g p2 hok htx hg
    have hdo : describeOutcome cfg f e = .done ("", 0, none) := by
      rw [describeOutcome_enabled cfg f e bytes p2 hhttp hcd hok htx, hg]
    constructor
    · rw [describe_fst, hdo]
    · rw [taskRecord_fst, recordOf_of_outcome_ok cfg f e "" 0 hdo]
      rfl
  · intro m hne hparse
    have hdo : describeOutcome cfg f e =
        .done ("", 0, some ("failed to parse custom template: " ++ m)) :=
      describeOutcome_template_error cfg f e bytes m hhttp hcd hne hparse
    constructor
    · rw [describe_fst, hdo]
    · rw [taskRecord_fst, recordOf_of_outcome_err cfg f e "" 0 _ hdo]
      rfl
  · intro rest hrest
    exact runRecords_cons_fst cfg f e rest fs htrans hrest

/-- Witness for C5_model_error_vs_template_error at a concrete asset whose
model invocation fails. -/
theorem C5_model_error_vs_template_error_witness :
    envGenErr.http = .resp statusOK (.ok [0, 1, 2])
    ∧ cfgEx.createDescription = true
    ∧ (describe cfgEx fileEx envGenErr emptyFS).1 = .done ("", 0, none)
    ∧ (taskRecord cfgEx fileEx envGenErr emptyFS).1 =
      .done [fileEx.name, "0", fileEx.mimeType, fileEx.id, ""] :=
  ⟨rfl, rfl,
    ((C5_model_error_vs_template_error cfgEx fileEx envGenErr emptyFS [0, 1, 2] rfl rfl).1
      "rpc error" "Describe the media" rfl rfl rfl).1,
    ((C5_model_error_vs_template_error cfgEx fileEx envGenErr emptyFS [0, 1, 2] rfl rfl).1
      "rpc error" "Describe the media" rfl rfl rfl).2⟩

/-- Claim C6: with the client created and the write path healthy, an upload
call with override false skips the upload and succeeds when the probe finds
the object, performs the upload when the probe reports not-found, and fails
on any other probe error; with override true the upload is always performed
regardless of the probe. -/
theorem C6_upload_probe_and_override (env : GCSEnv) (bucketName folderPath objectName : String)
    (fileBytes : List Nat) (hc : env.clientErr = none)
    (hw : env.writeOk = true) (hcl : env.closeOk = true) :
    (env.probe = .found →
      uploadFileToGCS env bucketName folderPath objectName fileBytes false =
        .ok .skippedExisting)
    ∧ (env.probe = .notFound →
      uploadFileToGCS env bucketName folderPath objectName fileBytes false = .ok .uploaded)
    ∧ (∀ m, env.probe = .otherErr m →
      uploadFileToGCS env bucketName folderPath objectName fileBytes false =
        .err ("failed to check object existence: " ++ m))
    ∧ uploadFileToGCS env bucketName folderPath objectName fileBytes true = .ok .uploaded := by
  have hup : uploadWrite env = .ok .uploaded := by
    unfold uploadWrite
    rw [hw, hcl]
    rfl
  refine ⟨?_, ?_, ?_, ?_⟩
  · intro hp
    unfold uploadFileToGCS
    rw [hc, hp]
    rfl
  · intro hp
    unfold uploadFileToGCS
    rw [hc, hp]
    exact hup
  · intro m hp
    unfold uploadFileToGCS
    rw [hc, hp]
    rfl
  · unfold uploadFileToGCS
    rw [hc]
    exact hup

/-- Witness for C6_upload_probe_and_override: with a probe that finds the
object, override false skips the upload and override true still uploads. -/
theorem C6_upload_probe_and_override_witness :
    gcsEnvFound.clientErr = none ∧ gcsEnvFound.writeOk = true ∧ gcsEnvFound.closeOk = true
    ∧ (gcsEnvFound.probe = .found →
      uploadFileToGCS gcsEnvFound "bucket" "path" "a.png" [0] false = .ok .skippedExisting)
    ∧ uploadFileToGCS gcsEnvFound "bucket" "path" "a.png" [0] true = .ok .uploaded :=
  ⟨rfl, rfl, rfl,
    (C6_upload_probe_and_override gcsEnvFound "bucket" "path" "a.png" [0] rfl rfl rfl).1,
    (C6_upload_probe_and_override gcsEnvFound "bucket" "path" "a.png" [0] rfl rfl rfl).2.2.2⟩

/-- Claim C7: when a file with the display name already exists locally, a
successful download still returns the freshly fetched bytes and leaves the
local files untouched. -/
theorem C7_cache_hit_fresh_bytes (localName : String) (f : DriveFile) (bytes : List Nat)
    (fs : LocalFS) (hex : fsFileExists fs (goPathJoin localName f.name) = true) :
    ∃ fs2, getFileBytes localName f (.resp statusOK (.ok bytes)) fs = (.done (.ok bytes), fs2)
    ∧ fs2.files = fs.files := by
  refine ⟨if fsDirExists fs localName then fs else fsMkdirAll fs localName, ?_, ?_⟩
  · rw [getFileBytes_ok]
    rw [fsFileExists_indifferent, hex]
    simp
  · split <;> rfl

/-- Witness for C7_cache_hit_fresh_bytes: the cached copy holds different
bytes than the remote response, yet the response bytes are returned and the
cached copy is untouched. -/
theorem C7_cache_hit_fresh_bytes_witness :
    fsFileExists (LocalFS.mk ["local"] [("local/a.png", [9, 9, 9])])
      (goPathJoin "local" fileEx.name) = true
    ∧ ∃ fs2, getFileBytes "local" fileEx (.resp statusOK (.ok [1, 2]))
        (LocalFS.mk ["local"] [("local/a.png", [9, 9, 9])]) = (.done (.ok [1, 2]), fs2)
      ∧ fs2.files = (LocalFS.mk ["local"] [("local/a.png", [9, 9, 9])]).files :=
  ⟨by decide,
    C7_cache_hit_fresh_bytes "local" fileEx [1, 2]
      (LocalFS.mk ["local"] [("local/a.png", [9, 9, 9])]) (by decide)⟩

/-- Claim C8, amended: for every asset whose download succeeds, with
description generation disabled, describe returns the fixed placeholder with
the byte count, makes no template or model call (its result is unchanged
under every template-parse, template-execution and model outcome), and the
record description equals the placeholder; an asset whose download fails
still yields an error-text record, not the placeholder. -/
theorem C8_describe_disabled (cfg : Config) (f : DriveFile) (e : AssetEnv) (fs : LocalFS)
    (bytes : List Nat) (hcd : cfg.createDescription = false)
    (hhttp : e.http = .resp statusOK (.ok bytes)) :
    (describe cfg f e fs).1 = .done ("Description skipped", bytes.length, none)
    ∧ (∀ p2 t2 g, describe cfg f
        { e with customParse := p2, tmplExec := t2, genResult := g } fs
        = describe cfg f e fs)
    ∧ (taskRecord cfg f e fs).1 =
      .done [f.name, toString bytes.length, f.mimeType, f.id, "Description skipped"] := by
  have hdo : describeOutcome cfg f e = .done ("Description skipped", bytes.length, none) := by
    unfold describeOutcome
    rw [hhttp, downloadOutcome_ok]
    dsimp only
    rw [hcd]
    rfl
  refine ⟨?_, ?_, ?_⟩
  · rw [describe_fst, hdo]
  · intro p2 t2 g
    unfold describe
    dsimp only
    rcases hgf : getFileBytes cfg.localFolderName f e.http fs with ⟨r, fs2⟩
    cases r with
    | fatal m => rfl
    | done res =>
      cases res with
      | err m => rfl
      | ok fileBytes =>
        rw [hcd]
        rfl
  · rw [taskRecord_fst, recordOf_of_outcome_ok cfg f e "Description skipped" bytes.length hdo]

/-- Claim C8, counterexample to the claim as stated: with description
generation disabled, an asset whose download returns status 500 yields a
record whose description is an error text, not the placeholder. -/
theorem C8_counterexample :
    (taskRecord cfgNoDesc fileEx envBadStatus emptyFS).1 =
      .done ["a.png", "0", "image/png", "id0", "Error: Error: HTTP status code 500"]
    ∧ ¬ ("Error: Error: HTTP status code 500" = "Description skipped") :=
  ⟨by decide, by decide⟩

/-- Witness for C8_describe_disabled at a concrete successfully downloaded
asset. -/
theorem C8_describe_disabled_witness :
    cfgNoDesc.createDescription = false
    ∧ envOkEx.http = .resp statusOK (.ok [0, 1, 2])
    ∧ (describe cfgNoDesc fileEx envOkEx emptyFS).1 = .done ("Description skipped", 3, none)
    ∧ (taskRecord cfgNoDesc fileEx envOkEx emptyFS).1 =
      .done ["a.png", "3", "image/png", "id0", "Description skipped"] :=
  ⟨rfl, rfl,
    (C8_describe_disabled cfgNoDesc fileEx envOkEx emptyFS [0, 1, 2] rfl rfl).1,
    (C8_describe_disabled cfgNoDesc fileEx envOkEx emptyFS [0, 1, 2] rfl rfl).2.2⟩

/-- Claim C9, amended: every successfully downloaded asset has a local file
with its display name after the call, the downloaded bytes are returned, and
when no file with that name existed before, the local file holds exactly the
downloaded bytes; a pre-existing file is left untouched (and may therefore
differ in length from the download). -/
theorem C9_downloaded_file_persisted (localName : String) (f : DriveFile)
    (bytes : List Nat) (fs : LocalFS) :
    ∃ fs2, getFileBytes localName f (.resp statusOK (.ok bytes)) fs = (.done (.ok bytes), fs2)
    ∧ fsFileExists fs2 (goPathJoin localName f.name) = true
    ∧ (fsFileExists fs (goPathJoin localName f.name) = false →
        fsLookup fs2 (goPathJoin localName f.name) = some bytes)
    ∧ (fsFileExists fs (goPathJoin localName f.name) = true → fs2.files = fs.files) := by
  cases hex : fsFileExists fs (goPathJoin localName f.name) with
  | true =>
    refine ⟨if fsDirExists fs localName then fs else fsMkdirAll fs localName, ?_, ?_, ?_, ?_⟩
    · rw [getFileBytes_ok, fsFileExists_indifferent, hex]
      simp
    · rw [fsFileExists_indifferent, hex]
    · intro hcontra
      exact absurd hcontra (by simp)
    · intro _
      split <;> rfl
  | false =>
    refine ⟨fsWriteFile (if fsDirExists fs localName then fs else fsMkdirAll fs localName)
      (goPathJoin localName f.name) bytes, ?_, ?_, ?_, ?_⟩
    · rw [getFileBytes_ok, fsFileExists_indifferent, hex]
      simp
    · exact fsFileExists_write _ _ _
    · intro _
      exact fsLookup_write _ _ _
    · intro hcontra
      exact absurd hcontra (by simp)

/-- Claim C9, counterexample to the claim as stated: a pre-existing one-byte
local copy of a.png survives a successful two-byte download untouched, so the
local byte length (1) differs from the downloaded byte length (2). -/
theorem C9_counterexample :
    getFileBytes "local" fileEx (.resp statusOK (.ok [0, 1]))
      (LocalFS.mk ["local"] [("local/a.png", [0])]) =
      (.done (.ok [0, 1]), LocalFS.mk ["local"] [("local/a.png", [0])])
    ∧ fsLookup (LocalFS.mk ["local"] [("local/a.png", [0])])
        (goPathJoin "local" fileEx.name) = some [0]
    ∧ ([0, 1] : List Nat).length = 2
    ∧ ([0] : List Nat).length = 1 :=
  ⟨by decide, by decide, rfl, rfl⟩

/-- Witness for C9_downloaded_file_persisted at a fresh download into an
empty filesystem. -/
theorem C9_downloaded_file_persisted_witness :
    fsFileExists emptyFS (goPathJoin "local" fileEx.name) = false
    ∧ ∃ fs2, getFileBytes "local" fileEx (.resp statusOK (.ok [5, 6])) emptyFS =
        (.done (.ok [5, 6]), fs2)
      ∧ fsFileExists fs2 (goPathJoin "local" fileEx.name) = true
      ∧ (fsFileExists emptyFS (goPathJoin "local" fileEx.name) = false →
          fsLookup fs2 (goPathJoin "local" fileEx.name) = some [5, 6])
      ∧ (fsFileExists emptyFS (goPathJoin "local" fileEx.name) = true →
          fs2.files = emptyFS.files) :=
  ⟨by decide, C9_downloaded_file_persisted "local" fileEx [5, 6] emptyFS⟩

/-- Claim C10: with the download succeeded, generation enabled and the
built-in template in use, the upload is attempted (its result is recorded),
and a model-invocation failure makes describe report size 0 with an empty
description — although the actual byte count was known, as the success case
with the same bytes shows by reporting it. -/
theorem C10_model_failure_reports_size_zero (cfg : Config) (f : DriveFile) (e : AssetEnv)
    (fs : LocalFS) (bytes : List Nat) (p2 : String)
    (hhttp : e.http = .resp statusOK (.ok bytes)) (hcd : cfg.createDescription = true)
    (hloc : cfg.customPromptLocation = "") (htx : e.tmplExec = .ok p2) :
    (describe cfg f e fs).2.1 =
      some (uploadFileToGCS e.gcs cfg.gcsBucket cfg.gcsFolderPath f.name bytes
        cfg.alwaysUploadToGCS)
    ∧ (∀ g, e.genResult = .err g →
        (describe cfg f e fs).1 = .done ("", 0, none)
        ∧ (taskRecord cfg f e fs).1 = .done [f.name, "0", f.mimeType, f.id, ""])
    ∧ (∀ t, (describe cfg f { e with genResult := .ok t } fs).1 =
        .done (t, bytes.length, none)) := by
  have hok : (if cfg.customPromptLocation ≠ "" then e.customParse else Res.ok ()) =
      Res.ok () := by
    rw [hloc]
    simp
  have h1 : (getFileBytes cfg.localFolderName f e.http fs).1 = .done (.ok bytes) := by
    rw [getFileBytes_fst, hhttp, downloadOutcome_ok]
  refine ⟨?_, ?_, ?_⟩
  · unfold describe
    rcases hgf : getFileBytes cfg.localFolderName f e.http fs with ⟨r, fs2⟩
    rw [hgf] at h1
    simp only at h1
    subst h1
    dsimp only
    rw [hcd, hok, htx]
    cases e.genResult <;> rfl
  · intro g hg
    have hdo : describeOutcome cfg f e = .done ("", 0, none) := by
      rw [describeOutcome_enabled cfg f e bytes p2 hhttp hcd hok htx, hg]
    constructor
    · rw [describe_fst, hdo]
    · rw [taskRecord_fst, recordOf_of_outcome_ok cfg f e "" 0 hdo]
      rfl
  · intro t
    have hok2 : (if cfg.customPromptLocation ≠ ""
        then ({ e with genResult := Res.ok t } : AssetEnv).customParse
        else Res.ok ()) = Res.ok () := hok
    have hdo : describeOutcome cfg f { e with genResult := Res.ok t } =
        .done (t, bytes.length, none) := by
      rw [describeOutcome_enabled cfg f { e with genResult := Res.ok t } bytes p2 hhttp
        hcd hok2 htx]
    rw [describe_fst, hdo]

/-- Witness for C10_model_failure_reports_size_zero at a concrete asset with
3 downloaded bytes whose model invocation fails. -/
theorem C10_model_failure_reports_size_zero_witness :
    envGenErr.http = .resp statusOK (.ok [0, 1, 2])
    ∧ cfgEx.createDescription = true
    ∧ cfgEx.customPromptLocation = ""
    ∧ (describe cfgEx fileEx envGenErr emptyFS).1 = .done ("", 0, none)
    ∧ (taskRecord cfgEx fileEx envGenErr emptyFS).1 =
      .done [fileEx.name, "0", fileEx.mimeType, fileEx.id, ""] :=
  ⟨rfl, rfl, rfl,
    ((C10_model_failure_reports_size_zero cfgEx fileEx envGenErr emptyFS [0, 1, 2]
      "Describe the media" rfl rfl rfl rfl).2.1 "rpc error" rfl).1,
    ((C10_model_failure_reports_size_zero cfgEx fileEx envGenErr emptyFS [0, 1, 2]
      "Describe the media" rfl rfl rfl rfl).2.1 "rpc error" rfl).2⟩

end DriveToGCS
